import Mathlib

/-!
Shallow embedding of the repository `FenicsDemos` (single source file
`src/FenicsAcoustics.ipynb`, a Jupyter notebook).  The notebook document is
embedded verbatim as a JSON value; the Python snippets the claims speak about
are the fenced ```python blocks of its markdown cells, extracted below by the
same fence discipline the notebook uses.  Python-level notions the claims need
(bracket balance, assignment targets, identifier tokens, the semantics of
`^` on ints, the FEniCS `SubDomain.mark`/`set_all` calls) are modelled as
executable Lean functions.
-/

/-- Abstract syntax of JSON documents (the notebook file format). -/
inductive Json where
  | null : Json
  | bool : Bool → Json
  | num : Int → Json
  | str : String → Json
  | arr : List Json → Json
  | obj : List (String × Json) → Json

/-- Look up a key in a JSON object field list (first match). -/
def Json.lookupKey : List (String × Json) → String → Option Json
  | [], _ => Option.none
  | (k, v) :: rest, key => if k = key then Option.some v else Json.lookupKey rest key

/-- Field access on a JSON value: `Option.none` unless it is an object with the key. -/
def Json.getField : Json → String → Option Json
  | Json.obj fields, key => Json.lookupKey fields key
  | _, _ => Option.none

/-- Whether a JSON value is an object. -/
def Json.isObj : Json → Bool
  | Json.obj _ => true
  | _ => false

/-- The string content of a JSON string value (defaults to `""`). -/
def Json.asStr : Json → String
  | Json.str s => s
  | _ => ""

def notebook : Json :=
  Json.obj [
    ("cells", Json.arr [
      Json.obj [
        ("cell_type", Json.str "markdown"),
        ("metadata", Json.obj []),
        ("source", Json.arr [
          Json.str "# FEniCS for acoustics\n",
          Json.str "## Author: Ben Goldsberry\n"])],
      Json.obj [
        ("cell_type", Json.str "markdown"),
        ("metadata", Json.obj []),
        ("source", Json.arr [
          Json.str "# Import FEniCS module\n",
          Json.str "To import FEniCS, use:\n",
          Json.str "\x60\x60\x60python\n",
          Json.str "from dolfin import *\n",
          Json.str "\x60\x60\x60"])],
      Json.obj [
        ("cell_type", Json.str "markdown"),
        ("metadata", Json.obj []),
        ("source", Json.arr [
          Json.str "# Import mesh and define function space\n",
          Json.str "\x60\x60\x60python\n",
          Json.str "mesh = Mesh(\x27mesh.xml\x27)\n",
          Json.str "\x60\x60\x60\n",
          Json.str "For a scalar function (pressure acoustics)\n",
          Json.str "\x60\x60\x60python\n",
          Json.str "V = FunctionSpace(mesh,\x27CG\x27,2)\n",
          Json.str "p = TrialFunction(V) #pressure trial function\n",
          Json.str "dp = TestFunction(V) #pressure test function\n",
          Json.str "\x60\x60\x60\n",
          Json.str "for elasticity:\n",
          Json.str "\x60\x60\x60python\n",
          Json.str "V = VectorFunctionSpace(mesh,\x27CG\x27,2)\n",
          Json.str "u = TrialFunction(V) #Displacement trial function\n",
          Json.str "du = TestFunction(V) #Displacement test function\n",
          Json.str "\x60\x60\x60\n"])],
      Json.obj [
        ("cell_type", Json.str "markdown"),
        ("metadata", Json.obj []),
        ("source", Json.arr [
          Json.str "# Weak forms\n",
          Json.str "## Pressure acoustics\n",
          Json.str "The inhomogeneous Helmholtz equation for pressure is:\n",
          Json.str "$$ \\nabla^2p+k^2p =f$$\n",
          Json.str "The weak form of the above equation is:\n",
          Json.str "$$ \\frac\x7bk^2\x7d\x7b\\rho\x7d\\int \\limits_\\Omega  p \\delta p \\, d \\Omega - \\frac\x7b1\x7d\x7b\\rho\x7d\\int \\limits_\\Omega \\nabla p \\cdot \\nabla \\delta p \\,d \\Omega + \\frac\x7b1\x7d\x7b\\rho\x7d\\int \\limits_\x7b\\Gamma_N\x7d \\delta p (\\nabla p \\cdot n) \\,d\\Gamma_N =\\frac\x7b1\x7d\x7b\\rho\x7d\\int \\limits_\\Omega f\\delta p \\, d \\Omega     \\\\\n",
          Json.str "p = 0 \\quad \\text\x7bon\x7d \\quad \\Gamma_D$$\n",
          Json.str "This is written is FEniCs as\n",
          Json.str "\x60\x60\x60python\n",
          Json.str "n = FacetNormal(mesh)\n",
          Json.str "StiffnessMatrix = 1/rho*dot(grad(p),grad(dp))*dx\n",
          Json.str "MassMatrix = 1/rho*p*dp*dx\n",
          Json.str "NeumannBC = 1/rho*dp*dot(p,n)*ds\n",
          Json.str "forcingFcn = 1/rho*dp*f*dx\n",
          Json.str "WeakForm = -Stiffness + k^2*MassMatrix + NeumannBC\n",
          Json.str "\x60\x60\x60\n",
          Json.str "## Linear Elasticity\n",
          Json.str "The stiffness tensor is\n",
          Json.str "$$ C_\x7bijkl\x7d = K\\delta_\x7bij\x7d\\delta_\x7bkl\x7d +\\mu(\\delta_\x7bik\x7d\\delta_\x7bjl\x7d +\\delta_\x7bil\x7d\\delta_\x7bjk\x7d -\\frac\x7b2\x7d\x7b3\x7d\\delta_\x7bij\x7d\\delta_\x7bkl\x7d)$$\n",
          Json.str "In FEniCS, this is implemented as:\n",
          Json.str "\x60\x60\x60python\n",
          Json.str "I = identity(2)# Second order identity tensor\n",
          Json.str "C = as_tensor(K*I[i,j]*I[k,l] + mu*(I[i,k]*I[j,l] + I[i,l]*I[j,k] - 2./3*I[i,j]*I[k,l],(i,j,k,l))\n",
          Json.str "\x60\x60\x60\n",
          Json.str "The weak form of linear elasticity is:\n",
          Json.str "$$ \\int \\limits_\\Omega [\\sigma(u)_\x7bij\x7d\\varepsilon(\\delta u)_\x7bij\x7d - \\omega^2\\rho \\delta u_i u_i] \\,d\\Omega -\\int \\limits_\\Gamma \\sigma_\x7bij\x7dn_j\\delta u_i \\,d \\Gamma=0$$\n",
          Json.str "This is implemented in FEniCS as:\n",
          Json.str "\x60\x60\x60python\n",
          Json.str "StrainU = 0.5*(grad(u)+transpose(grad(u))) = sym(grad(u))\n",
          Json.str "StrainDu = 0.5*(grad(du)+transpose(grad(du)))\n",
          Json.str "StressU = as_tensor(C[i,j,k,l]*StrainU[k,l],(i,j))\n",
          Json.str "WeakForm = inner(StressU,StrainDu)*dx - omega**2*rho*dot(u,du)*dx - p*dot(du,n)*ds\n",
          Json.str "\x60\x60\x60"])],
      Json.obj [
        ("cell_type", Json.str "markdown"),
        ("metadata", Json.obj []),
        ("source", Json.arr [
          Json.str "## Nonlinear Elasticity\n",
          Json.str "\x60\x60\x60python\n",
          Json.str "F = grad(u)+I\n",
          Json.str "C = F.T*F #Right Cauchy-Green tensor\n",
          Json.str "E = 0.5*(C-I) #Finite Strain tensor\n",
          Json.str "W = lmbda/2*tr(E)**2+mu*tr(E*E) # St. Venant-Kirchhoff Strain-energy density\n",
          Json.str "E = variable(E)\n",
          Json.str "S = diff(W,E) #Second Piola-Stress tensor\n",
          Json.str "\x60\x60\x60"])],
      Json.obj [
        ("cell_type", Json.str "markdown"),
        ("metadata", Json.obj []),
        ("source", Json.arr [
          Json.str "## Subdomains\n",
          Json.str "\x60\x60\x60python\n",
          Json.str "class GammaN(SubDomain):\n",
          Json.str "    def inside(self, x, on_boundary):\n",
          Json.str "        tol = 1E-14\n",
          Json.str "        return on_boundary and near(x[0], 0, tol)\n",
          Json.str "        \n",
          Json.str "class GammaD(SubDomain):\n",
          Json.str "    def inside(self, x, on_boundary):\n",
          Json.str "        tol = 1E-14\n",
          Json.str "        return on_boundary and near(x[0], 0, tol)\n",
          Json.str "NeumannBoundary = GammaN()\n",
          Json.str "DirichletBoundary = GammaD()\n",
          Json.str "boundary_markers = FacetFunction(\x27size_t\x27, mesh)\n",
          Json.str "boundary_markers.set_all(0)\n",
          Json.str "DirichletBoundary.mark(boundary_markers,1)\n",
          Json.str "NeumannBoundary.mark(boundary_markers,2)\n",
          Json.str "ds = Measure(\x27ds\x27, domain=mesh, subdomain_data=boundary_markers)\n",
          Json.str "bc = DirichletBC(V,Constant(0.0),DirichletBoundary)\n",
          Json.str "\x60\x60\x60"])],
      Json.obj [
        ("cell_type", Json.str "markdown"),
        ("metadata", Json.obj []),
        ("source", Json.arr [
          Json.str "## Solving and plotting\n",
          Json.str "\x60\x60\x60python\n",
          Json.str "solve(WeakForm==forcingFcn,u,bc)\n",
          Json.str "file = File(\x22u.pvd\x22)\n",
          Json.str "file << u\n",
          Json.str "plot(u)\n",
          Json.str "\x60\x60\x60"])],
      Json.obj [
        ("cell_type", Json.str "code"),
        ("execution_count", Json.null),
        ("metadata", Json.obj [
          ("collapsed", Json.bool true)]),
        ("outputs", Json.arr []),
        ("source", Json.arr [])]]),
    ("metadata", Json.obj [
      ("kernelspec", Json.obj [
        ("display_name", Json.str "Python 2"),
        ("language", Json.str "python"),
        ("name", Json.str "python2")]),
      ("language_info", Json.obj [
        ("codemirror_mode", Json.obj [
          ("name", Json.str "ipython"),
          ("version", Json.num 2)]),
        ("file_extension", Json.str ".py"),
        ("mimetype", Json.str "text/x-python"),
        ("name", Json.str "python"),
        ("nbconvert_exporter", Json.str "python"),
        ("pygments_lexer", Json.str "ipython2"),
        ("version", Json.str "2.7.12")])]),
    ("nbformat", Json.num 4),
    ("nbformat_minor", Json.num 1)]

/-- The notebook's `cells` array. -/
def notebookCells : List Json :=
  match Json.getField notebook ("cells") with
  | Option.some (Json.arr cs) => cs
  | _ => []

/-- The `source` lines of a notebook cell. -/
def cellSource (c : Json) : List String :=
  match Json.getField c ("source") with
  | Option.some (Json.arr ls) => ls.map Json.asStr
  | _ => []

/-- Whether the first character list is a prefix of the second. -/
def listPrefixOf : List Char → List Char → Bool
  | [], _ => true
  | _ :: _, [] => false
  | c :: cs, d :: ds => c = d && listPrefixOf cs ds

/-- Whether a string starts with a given string. -/
def strStarts (s p : String) : Bool := listPrefixOf p.data s.data

/-- Whether the first character list occurs inside the second. -/
def containsList : List Char → List Char → Bool
  | pat, [] => pat.isEmpty
  | pat, c :: rest => listPrefixOf pat (c :: rest) || containsList pat rest

/-- Whether one string contains another as a substring. -/
def containsSub (s pat : String) : Bool := containsList pat.data s.data

/-- Extract the fenced ```python code blocks from a cell's source lines:
a line starting with ```python opens a block, the next line starting with
``` closes it. -/
def fencedBlocks : List String → Bool → List String → List (List String)
  | [], _, acc => if acc.isEmpty then [] else [acc.reverse]
  | l :: ls, true, acc =>
    if strStarts l ("\x60\x60\x60") then acc.reverse :: fencedBlocks ls false []
    else fencedBlocks ls true (l :: acc)
  | l :: ls, false, acc =>
    if strStarts l ("\x60\x60\x60python") then fencedBlocks ls true []
    else fencedBlocks ls false acc

/-- All Python snippets embedded in the notebook, in document order. -/
def snippets : List (List String) :=
  (notebookCells.map (fun c => fencedBlocks (cellSource c) false [])).flatten

/-- The `i`-th snippet (empty when out of range). -/
def sn (i : Nat) : List String := snippets.getD i []

/-- All code lines of all snippets. -/
def codeLines : List String := snippets.flatten

/-- Bracket nesting contribution of a character (Python's three bracket pairs). -/
def bracketDelta (c : Char) : Int :=
  if c = '(' || c = '[' || c = '\x7b' then 1
  else if c = ')' || c = ']' || c = '\x7d' then -1
  else 0

/-- Scan one physical line of Python: starting from bracket depth `d`, skip
string literals and comments, and return the end-of-line depth together with
`false` when the depth ever goes negative.  The third argument holds the open
string quote, the fourth whether a comment has started. -/
def pyScan : List Char → Int → Option Char → Bool → Int × Bool
  | [], d, _, _ => (d, true)
  | _ :: cs, d, q, true => pyScan cs d q true
  | c :: cs, d, Option.some qc, false =>
    if c = qc then pyScan cs d Option.none false
    else pyScan cs d (Option.some qc) false
  | c :: cs, d, Option.none, false =>
    if c = '\x27' || c = '\x22' then pyScan cs d (Option.some c) false
    else if c = '\x23' then pyScan cs d Option.none true
    else
      let d2 := d + bracketDelta c
      if d2 < 0 then (d2, false)
      else pyScan cs d2 Option.none false

/-- Characters that make a following `=` part of a compound operator
(comparison or augmented assignment) rather than a plain assignment. -/
def eqOpChar (c : Char) : Bool :=
  c = '=' || c = '<' || c = '>' || c = '!' || c = '+' || c = '-' || c = '*' ||
  c = '/' || c = '%' || c = '&' || c = '|' || c = '^' || c = '~' || c = '@' || c = ':'

/-- Split one line at its top-level plain `=` signs (bracket depth 0, not part
of a compound operator, outside strings and comments), returning the segments.
Arguments: remaining characters, depth, open quote, previous character, current
segment reversed. -/
def splitEq : List Char → Int → Option Char → Char → List Char → List (List Char)
  | [], _, _, _, seg => [seg.reverse]
  | c :: cs, d, Option.some qc, _, seg =>
    if c = qc then splitEq cs d Option.none c (c :: seg)
    else splitEq cs d (Option.some qc) c (c :: seg)
  | c :: cs, d, Option.none, prev, seg =>
    if c = '\x27' || c = '\x22' then splitEq cs d (Option.some c) c (c :: seg)
    else if c = '\x23' then [seg.reverse]
    else if c = '=' && d = 0 && !eqOpChar prev && !(cs.headD ' ' = '=') then
      seg.reverse :: splitEq cs d Option.none c []
    else splitEq cs (d + bracketDelta c) Option.none c (c :: seg)

/-- Whether a character may start a Python identifier. -/
def isIdentStart (c : Char) : Bool := c.isAlpha || c = '_'

/-- Whether a character may continue a Python identifier. -/
def isIdentChar (c : Char) : Bool := c.isAlphanum || c = '_'

/-- Strip leading and trailing blanks. -/
def stripBlanks (cs : List Char) : List Char :=
  ((cs.dropWhile (fun c => c = ' ' || c = '\t' || c = '\n' || c = '\r')).reverse.dropWhile
    (fun c => c = ' ' || c = '\t' || c = '\n' || c = '\r')).reverse

/-- Whether a character list is a single Python identifier. -/
def isIdent : List Char → Bool
  | [] => false
  | c :: cs => isIdentStart c && cs.all isIdentChar

/-- A line's assignment targets are well-formed: every top-level `=`-segment
except the last is a plain identifier (Python restricted to chained assignment
of plain names, the only target form the notebook uses). -/
def lineTargetsOk (l : String) : Bool :=
  let segs := splitEq l.data 0 Option.none ' ' []
  segs.dropLast.all (fun s => isIdent (stripBlanks s))

/-- Necessary syntactic conditions for a Python snippet to be accepted by the
parser: bracket depth never goes negative and returns to zero at the end of
the snippet, and every line starting at depth 0 has well-formed assignment
targets. -/
def snippetScan : List String → Int → Bool
  | [], d => d == 0
  | l :: ls, d =>
    let p := pyScan l.data d Option.none false
    (if d == 0 then lineTargetsOk l else true) && p.2 && snippetScan ls p.1

/-- A snippet passes the syntactic necessary conditions. -/
def snippetOk (s : List String) : Bool := snippetScan s 0

/-- Maximal alphanumeric/underscore runs of a line (second argument: current
run reversed). -/
def identTokensAux : List Char → List Char → List String
  | [], cur => if cur.isEmpty then [] else [String.mk cur.reverse]
  | c :: cs, cur =>
    if isIdentChar c then identTokensAux cs (c :: cur)
    else if cur.isEmpty then identTokensAux cs []
    else String.mk cur.reverse :: identTokensAux cs []

/-- The identifier tokens of a line (maximal identifier-character runs that
start like an identifier; Python keywords included). -/
def identTokens (s : String) : List String :=
  (identTokensAux s.data []).filter (fun t => isIdent t.data)

/-- All identifier tokens occurring in a snippet. -/
def snippetTokens (s : List String) : List String := (s.map identTokens).flatten

/-- Identifiers a line binds: plain-identifier assignment targets, and the
name introduced by a `class` or `def` header. -/
def lineBound (l : String) : List String :=
  let stripped := String.mk (stripBlanks l.data)
  let hdr :=
    if strStarts stripped ("class ") || strStarts stripped ("def ") then
      ((identTokens l).drop 1).take 1
    else []
  let segs := splitEq l.data 0 Option.none ' ' []
  hdr ++ (segs.dropLast.map stripBlanks).filterMap
    (fun s => if isIdent s then Option.some (String.mk s) else Option.none)

/-- Identifiers a snippet binds. -/
def boundIds (s : List String) : List String := (s.map lineBound).flatten

/-- A line that authors a Python class definition. -/
def isClassLine (l : String) : Bool := strStarts (String.mk (stripBlanks l.data)) ("class ")

/-- A line that authors a Python function definition. -/
def isDefLine (l : String) : Bool := strStarts (String.mk (stripBlanks l.data)) ("def ")

/-- A line using a Python boolean operator (`and`, `or`, `not`). -/
def hasBoolOp (l : String) : Bool :=
  containsSub l (" and ") || containsSub l (" or ") || containsSub l (" not ")

/-- A line performing file output: constructing a `File` or streaming with
`<<`. -/
def hasFileOutput (l : String) : Bool :=
  containsSub l ("File(") || containsSub l ("<<")

/-- FEniCS `near(x, x0, tol)`: `x` lies within `tol` of `x0`.  Coordinates
are modelled over `ℚ`. -/
def near (x x0 tol : ℚ) : Bool := decide (x0 - tol ≤ x) && decide (x ≤ x0 + tol)

/-- The tolerance `1E-14` both subdomain classes set. -/
def subTol : ℚ := 1 / 10 ^ 14

/-- `GammaN.inside` from the Subdomains snippet:
`return on_boundary and near(x[0], 0, tol)` with `tol = 1E-14`. -/
def GammaN_inside (x : List ℚ) (on_boundary : Bool) : Bool :=
  on_boundary && near (x.getD 0 0) 0 subTol

/-- `GammaD.inside` from the Subdomains snippet:
`return on_boundary and near(x[0], 0, tol)` with `tol = 1E-14`. -/
def GammaD_inside (x : List ℚ) (on_boundary : Bool) : Bool :=
  on_boundary && near (x.getD 0 0) 0 subTol

/-- A mesh boundary facet, abstracted to the data the `inside` predicates
inspect: its coordinates and its on-boundary flag. -/
structure Facet where
  x : List ℚ
  on_boundary : Bool

/-- FEniCS `FacetFunction.set_all(v)`: every facet gets marker `v`. -/
def set_all (v : ℕ) : Facet → ℕ := fun _ => v

/-- FEniCS `SubDomain.mark(markers, v)`: facets inside the subdomain get
marker `v`, the rest keep their previous marker. -/
def markSub (inside : List ℚ → Bool → Bool) (v : ℕ) (m : Facet → ℕ) : Facet → ℕ :=
  fun f => if inside f.x f.on_boundary then v else m f

/-- The marker function after the snippet's sequence
`boundary_markers.set_all(0)`, `DirichletBoundary.mark(boundary_markers,1)`,
`NeumannBoundary.mark(boundary_markers,2)` (where `NeumannBoundary = GammaN()`
and `DirichletBoundary = GammaD()`). -/
def boundary_markers : Facet → ℕ :=
  markSub GammaN_inside 2 (markSub GammaD_inside 1 (set_all 0))

/-- Python `^` on nonnegative ints: bitwise exclusive or. -/
def pyCaret (a b : ℕ) : ℕ := Nat.xor a b

/-- Python `**` on nonnegative ints: exponentiation. -/
def pyDoubleStar (a b : ℕ) : ℕ := a ^ b

/-- A notebook cell carries both a `cell_type` and a `source` field. -/
def cellWellFormed (c : Json) : Bool :=
  (Json.getField c ("cell_type")).isSome && (Json.getField c ("source")).isSome

/-- Well-formedness of the notebook document: a JSON object whose `cells`
field is an array of cells each carrying `cell_type` and `source`, and whose
`nbformat` field equals 4. -/
def nbWellFormed (j : Json) : Bool :=
  j.isObj &&
  (match Json.getField j ("cells") with
   | Option.some (Json.arr cs) => cs.all cellWellFormed
   | _ => false) &&
  (match Json.getField j ("nbformat") with
   | Option.some (Json.num n) => n == 4
   | _ => false)

/-- Helper: xor with 2 stays below the square for arguments at least 2. -/
theorem xor_two_lt_mul_self (k : ℕ) (h2 : 2 ≤ k) : Nat.xor k 2 < k * k := by
  have hk : k < 2 ^ (Nat.log2 k + 1) := Nat.lt_log2_self
  have h2n : 2 < 2 ^ (Nat.log2 k + 1) := lt_of_le_of_lt h2 hk
  have hx : Nat.xor k 2 < 2 ^ (Nat.log2 k + 1) := Nat.xor_lt_two_pow hk h2n
  have hlog : 2 ^ Nat.log2 k ≤ k := Nat.log2_self_le (by omega)
  have hpow : 2 ^ (Nat.log2 k + 1) ≤ 2 * k := by
    rw [pow_succ]
    omega
  have hsq : 2 * k ≤ k * k := Nat.mul_le_mul_right k h2
  omega

/-- C1 (counterexample): the notebook does author a class definition and
boolean predicate logic of its own: the line `class GammaN(SubDomain):` is a
code line of the notebook and is a class-definition line, and the line
`return on_boundary and near(x[0], 0, tol)` is a code line using a boolean
operator. -/
theorem C1_authored_class_defs :
    ("class GammaN(SubDomain):\n") ∈ codeLines ∧
    isClassLine ("class GammaN(SubDomain):\n") = true ∧
    ("        return on_boundary and near(x[0], 0, tol)\n") ∈ codeLines ∧
    hasBoolOp ("        return on_boundary and near(x[0], 0, tol)\n") = true := by
  exact ⟨by decide, rfl, by decide, rfl⟩

/-- C1 (amended): the only class definitions, function definitions and
boolean-operator uses authored by the notebook are the two `SubDomain`
subclasses `GammaN` and `GammaD` of the Subdomains snippet, their two
`inside` methods and the two `return ... and ...` predicate lines; every one
of those lines lies in the Subdomains snippet, and no other snippet contains
any of these constructs. -/
theorem C1_direct_calls_except_subdomain_classes :
    codeLines.filter isClassLine =
      ["class GammaN(SubDomain):\n", "class GammaD(SubDomain):\n"] ∧
    codeLines.filter isDefLine =
      ["    def inside(self, x, on_boundary):\n",
       "    def inside(self, x, on_boundary):\n"] ∧
    codeLines.filter hasBoolOp =
      ["        return on_boundary and near(x[0], 0, tol)\n",
       "        return on_boundary and near(x[0], 0, tol)\n"] ∧
    ((codeLines.filter isClassLine) ++ (codeLines.filter isDefLine) ++
      (codeLines.filter hasBoolOp)).all (fun l => (sn 8).contains l) = true := by
  exact ⟨rfl, rfl, rfl, rfl⟩

/-- C2 (code bug): the code marks the same set of boundary points for the
Neumann and the Dirichlet condition: `GammaD.inside` and `GammaN.inside` are
the same predicate, and the failing input `x = [0, 0]`, `on_boundary = true`
lies in both declared regions. -/
theorem C2_regions_coincide :
    GammaD_inside = GammaN_inside ∧
    GammaN_inside [0, 0] true = true ∧
    GammaD_inside [0, 0] true = true := by
  have h : GammaN_inside [0, 0] true = true := by
    simp [GammaN_inside, near, subTol]
  exact ⟨rfl, h, h⟩

/-- C3 (counterexample): not every snippet is accepted by the Python parser.
The stiffness-tensor snippet (snippet 5) fails the necessary syntactic
conditions: its `C = as_tensor(...)` line never closes its first parenthesis.
The strain snippet (snippet 6) fails as well: its first line chains an
assignment whose non-final target `0.5*(grad(u)+transpose(grad(u)))` is not
an assignable name. -/
theorem C3_invalid_snippet_exists :
    snippetOk (sn 5) = false ∧
    snippetOk (sn 6) = false ∧
    sn 5 = ["I = identity(2)# Second order identity tensor\n",
      "C = as_tensor(K*I[i,j]*I[k,l] + mu*(I[i,k]*I[j,l] + I[i,l]*I[j,k] - 2./3*I[i,j]*I[k,l],(i,j,k,l))\n"] ∧
    (sn 6).getD 0 ("") = "StrainU = 0.5*(grad(u)+transpose(grad(u))) = sym(grad(u))\n" := by
  exact ⟨rfl, rfl, rfl, rfl⟩

/-- C3 (amended): of the ten embedded snippets, all pass the syntactic
necessary conditions (balanced brackets outside strings and comments,
well-formed assignment targets) except the stiffness-tensor snippet and the
strain snippet of the linear-elasticity cell. -/
theorem C3_syntax_check_per_snippet :
    snippets.map snippetOk =
      [true, true, true, true, true, false, false, true, true, true] := by
  exact rfl

/-- C4 (counterexample): snippets are not self-contained: the identifier
`WeakForm` is bound in the pressure-acoustics snippet (snippet 4) and occurs,
unbound there, in the code of the solving snippet (snippet 9), a different
snippet. -/
theorem C4_cross_snippet_reference :
    ("WeakForm") ∈ boundIds (sn 4) ∧
    ("WeakForm") ∈ snippetTokens (sn 9) ∧
    ("WeakForm") ∉ boundIds (sn 9) ∧
    sn 4 ≠ sn 9 := by
  exact ⟨by decide, by decide, by decide, by decide⟩

/-- C4 (amended): there is data flow between the snippets: the solving
snippet references `WeakForm` and `forcingFcn` (bound by the
pressure-acoustics snippet), `u` (bound by the elasticity function-space
snippet) and `bc` (bound by the Subdomains snippet), none of which it binds
itself. -/
theorem C4_data_flow_into_solve :
    ("WeakForm") ∈ boundIds (sn 4) ∧
    ("forcingFcn") ∈ boundIds (sn 4) ∧
    ("u") ∈ boundIds (sn 3) ∧
    ("bc") ∈ boundIds (sn 8) ∧
    (["WeakForm", "forcingFcn", "u", "bc"].all
      (fun t => (snippetTokens (sn 9)).contains t && !(boundIds (sn 9)).contains t)) = true := by
  refine ⟨by decide, by decide, by decide, by decide, rfl⟩

/-- C5 (counterexample): the solving snippet does persist a domain object:
it constructs `File("u.pvd")` and streams the solution field `u` (bound by
the elasticity function-space snippet) into it with `file << u`. -/
theorem C5_solution_persisted :
    ("file = File(\x22u.pvd\x22)\n") ∈ codeLines ∧
    ("file << u\n") ∈ codeLines ∧
    hasFileOutput ("file << u\n") = true ∧
    ("u") ∈ boundIds (sn 3) := by
  exact ⟨by decide, by decide, rfl, by decide⟩

/-- C5 (amended): file output occurs in exactly one place: the two lines of
the solving snippet that export the solution `u` to `u.pvd`; no other code
line constructs a `File` or streams with `<<`. -/
theorem C5_persistence_only_in_solve_snippet :
    codeLines.filter hasFileOutput =
      ["file = File(\x22u.pvd\x22)\n", "file << u\n"] ∧
    (codeLines.filter hasFileOutput).all (fun l => (sn 9).contains l) = true := by
  exact ⟨rfl, rfl⟩

set_option maxRecDepth 8000 in
/-- C6: no error handling anywhere in the embedded snippets: no identifier
token of any code line is one of Python's exception-handling or
conditional keywords (`try`, `except`, `finally`, `raise`, `assert`, `if`,
`elif`, `else`, `while`). -/
theorem C6_no_error_handling_constructs :
    (codeLines.map identTokens).flatten.filter
      (fun t => ["try", "except", "finally", "raise", "assert",
                 "if", "elif", "else", "while"].contains t) = [] := by
  exact rfl

/-- C7: the source artifact is a well-formed notebook document: the embedded
JSON value `notebook` (a faithful transcription of `src/FenicsAcoustics.ipynb`,
whose existence witnesses that the file is valid JSON) is an object whose
`cells` field is an array in which every cell carries a `cell_type` and a
`source` field, and whose `nbformat` field equals 4. -/
theorem C7_notebook_well_formed : nbWellFormed notebook = true := by
  exact rfl

/-- C8: the two subdomain predicates are extensionally equal: for every
point `x` and flag `on_boundary`, `GammaN.inside` and `GammaD.inside` agree,
and both compute `on_boundary and near(x[0], 0, 1E-14)`. -/
theorem C8_inside_predicates_equal :
    ∀ (x : List ℚ) (on_boundary : Bool),
      GammaN_inside x on_boundary = GammaD_inside x on_boundary ∧
      GammaN_inside x on_boundary =
        (on_boundary && near (x.getD 0 0) 0 (1 / 10 ^ 14)) := by
  intro x on_boundary
  exact ⟨rfl, rfl⟩

/-- C9: after `set_all(0)`, `DirichletBoundary.mark(...,1)`,
`NeumannBoundary.mark(...,2)`, every facet satisfying the shared boundary
predicate carries marker 2 and every other facet carries marker 0; no facet
carries the Dirichlet marker 1, because the Neumann mark overwrites every
facet the Dirichlet mark set. -/
theorem C9_marker_values :
    ∀ f : Facet,
      boundary_markers f = (if GammaN_inside f.x f.on_boundary then 2 else 0) ∧
      boundary_markers f ≠ 1 := by
  intro f
  have key : boundary_markers f = (if GammaN_inside f.x f.on_boundary then 2 else 0) := by
    simp only [boundary_markers, markSub, set_all]
    cases h : GammaN_inside f.x f.on_boundary
    · have hD : GammaD_inside f.x f.on_boundary = false := h
      simp [h, hD]
    · simp [h]
  refine ⟨key, ?_⟩
  rw [key]
  cases GammaN_inside f.x f.on_boundary <;> simp

/-- C10: the pressure-acoustics weak form writes the mass-matrix coefficient
as `k^2`; the line is a code line of the pressure-acoustics snippet and
contains `k^2`, and under Python integer semantics `k^2` (bitwise xor with 2)
differs from the squared wavenumber `k**2` for every nonnegative integer
`k`. -/
theorem C10_caret_is_xor_not_square :
    ("WeakForm = -Stiffness + k^2*MassMatrix + NeumannBC\n") ∈ sn 4 ∧
    containsSub ("WeakForm = -Stiffness + k^2*MassMatrix + NeumannBC\n") ("k^2") = true ∧
    ∀ k : ℕ, pyCaret k 2 ≠ pyDoubleStar k 2 := by
  refine ⟨by decide, rfl, ?_⟩
  intro k
  match k with
  | 0 => decide
  | 1 => decide
  | (n + 2) =>
    have h := xor_two_lt_mul_self (n + 2) (by omega)
    have hsq : pyDoubleStar (n + 2) 2 = (n + 2) * (n + 2) := by
      simp [pyDoubleStar, pow_two]
    simp only [pyCaret]
    rw [hsq]
    exact Nat.ne_of_lt h
